import Mathlib

/-!
Verification development for the n8n-mcp-tool repository.

The repository contains two JavaScript entry points:
* `src/index.js` — an MCP SDK server exposing five tools backed by the
  class `N8nWorkflowManager` (referred to below as the "Idx" variant);
* `src/unnamed/part_000` — a raw stdio JSON server with its own
  `N8nWorkflowManager` and `MCPServer` (the "Part" variant).

Both shell out to docker and the n8n CLI.  The external world is modelled
by an environment `Env : String → Except String String` mapping a command
line to either its standard output or the message of the failure
(`error.message` in JavaScript).  Each operation is embedded as a Lean
function from the environment (plus the data the source reads: container
name, clock reading, request fields) to its returned value together with
the trace of external events it caused, in order.  Trace events carry a
`StepId` naming the source call site that issued the command, so that
theorems about which steps ran can be stated without string reasoning.
-/

/-- JavaScript whitespace test used by `trim` and the regex class in
`split(/\s\x7b2,\x7d/)`, restricted to the ASCII whitespace characters
(the unicode space characters never occur in the CLI output modelled
here). -/
def isJsWs (c : Char) : Bool :=
  c == ' ' || c == '\t' || c == '\n' || c == '\r' || c == '\x0b' || c == '\x0c'

/-- Model of JavaScript `String.prototype.trim` on the character list of a
string: drop whitespace from both ends. -/
def jsTrim (cs : List Char) : List Char :=
  ((cs.dropWhile isJsWs).reverse.dropWhile isJsWs).reverse

/-- String-level wrapper of `jsTrim`. -/
def jsTrimS (s : String) : String :=
  String.mk (jsTrim s.data)

/-- Model of JavaScript `split(\x27\n\x27)`: split at every newline
character; the empty input yields the one-element list of the empty
segment, exactly as in JavaScript. -/
def splitNl : List Char → List (List Char)
  | [] => [[]]
  | c :: cs =>
    if c = '\n' then [] :: splitNl cs
    else
      match splitNl cs with
      | [] => [[c]]
      | t :: ts => (c :: t) :: ts

/-- Worker for `jsSplitWs2`, structurally recursive on an explicit fuel
argument (initialised to the input length, which the recursion never
exhausts): a maximal run of at least two whitespace characters separates
tokens, exactly as the regex `\s\x7b2,\x7d` does in JavaScript `split`. -/
def splitRunsGo : Nat → List Char → List Char → List (List Char)
  | _, [], acc => [acc.reverse]
  | 0, cs, acc => [acc.reverse ++ cs]
  | fuel + 1, c :: cs, acc =>
    if isJsWs c && (match cs with | d :: _ => isJsWs d | [] => false) then
      acc.reverse :: splitRunsGo fuel (cs.dropWhile isJsWs) []
    else
      splitRunsGo fuel cs (c :: acc)

/-- Model of JavaScript `split(/\s\x7b2,\x7d/)` on a character list. -/
def jsSplitWs2 (cs : List Char) : List (List Char) :=
  splitRunsGo cs.length cs []

/-- Workflow summary produced by `listWorkflows` in `src/index.js`:
`\x7b id, name, active: active === \x27Active\x27 \x7d`.  The `id` and
`name` fields come from JavaScript array destructuring and are therefore
`undefined` (modelled as `none`) when the split produced fewer parts. -/
structure WorkflowSummary where
  id : Option String
  name : Option String
  active : Bool
deriving DecidableEq, Repr

/-- Parsing step of `listWorkflows` in `src/index.js`:
`result.trim().split(\x27\n\x27).map(line => ...)` where each line is
trimmed, split on runs of two or more whitespace characters, destructured
into `[id, name, active]`, and `active === \x27Active\x27` is tested. -/
def parseWorkflows (out : String) : List WorkflowSummary :=
  (splitNl (jsTrim out.data)).map fun lineCs =>
    let parts := jsSplitWs2 (jsTrim lineCs)
    { id := (parts[0]?).map String.mk
      name := (parts[1]?).map String.mk
      active := (parts[2]?).map String.mk == some "Active" }

/-- External world: maps a command line to its standard output, or to the
message of the failure (JavaScript `error.message`). -/
def Env : Type := String → Except String String

/-- Source call sites that issue external commands, one constructor per
`executeCommand`/`execAsync` call in the two implementations. -/
inductive StepId where
  | listIdx
  | echoTmpIdx
  | cpIdx
  | importIdx
  | rmTmpIdx
  | restartIdx
  | exportAllIdx
  | cpOutIdx
  | psIdx
  | grepIdx
  | logsIdx
  | listPart
  | backupPart
  | cpPart
  | importPart
  | activatePart
  | restartDuringUpdatePart
  | restartPart
  | exportAllPart
  | cpOutPart
  | psPart
  | grepPart
  | logsPart
deriving DecidableEq, Repr

/-- External events caused by an operation, in order: an external command
issued at a given call site, or a timed wait (`setTimeout`), in
milliseconds. -/
inductive Event where
  | run (step : StepId) (c : String)
  | wait (ms : Nat)
deriving DecidableEq, Repr

/-- Predicate telling whether the trace contains an event issued by the
given call site. -/
def hitsStep (t : List Event) (s : StepId) : Bool :=
  t.any fun e =>
    match e with
    | .run s2 _ => s2 == s
    | .wait _ => false

/-- Number of external commands in a trace (waits excluded). -/
def countCmds (t : List Event) : Nat :=
  (t.filter fun e =>
    match e with
    | .run _ _ => true
    | .wait _ => false).length

/-- The `executeCommand` wrapper of `src/index.js`: failures are re-thrown
as `Command failed: $\x7berror.message\x7d`.  (The stderr logging has no
effect on the returned value and is not modelled.) -/
def execIdx (env : Env) (c : String) : Except String String :=
  match env c with
  | .ok o => .ok o
  | .error e => .error ("Command failed: " ++ e)

/-- Template-literal rendering of a possibly-undefined JavaScript value:
`undefined` interpolates as the text "undefined". -/
def jsStr (o : Option String) : String :=
  o.getD "undefined"

/-- Command of `listWorkflows` in `src/index.js`. -/
def listCmdIdx (cname : String) : String :=
  "docker exec " ++ cname ++ " n8n list:workflow --no-header"

/-- Command of `listWorkflows` in `src/unnamed/part_000` (no header flag). -/
def listCmdPart (cname : String) : String :=
  "docker exec " ++ cname ++ " n8n list:workflow"

/-- Backup-export command of `updateWorkflow` in `src/unnamed/part_000`. -/
def backupCmd (cname wid : String) : String :=
  "docker exec " ++ cname ++ " n8n export:workflow --id=" ++ wid ++
    " --output=/tmp/backup-" ++ wid ++ ".json"

/-- Copy-into-container command shared by both `updateWorkflow` variants. -/
def cpCmd (src cname : String) : String :=
  "docker cp " ++ src ++ " " ++ cname ++ ":/tmp/update.json"

/-- Import command shared by both `updateWorkflow` variants. -/
def importCmd (cname : String) : String :=
  "docker exec " ++ cname ++ " n8n import:workflow --input=/tmp/update.json"

/-- Activation command of `updateWorkflow` in `src/unnamed/part_000`. -/
def activateCmd (cname wid : String) : String :=
  "docker exec " ++ cname ++ " n8n update:workflow --id=" ++ wid ++ " --active=true"

/-- Container restart command shared by both implementations. -/
def restartCmd (cname : String) : String :=
  "docker restart " ++ cname

/-- Timestamp sanitisation of `backupWorkflows` in both implementations:
`new Date().toISOString().replace(/[:.]/g, \x27-\x27)`.  The ISO clock
reading itself is an input (it comes from the external clock). -/
def sanitizeTs (ts : String) : String :=
  String.mk (ts.data.map fun c => if c == ':' || c == '.' then '-' else c)

/-- Backup file name of `backupWorkflows` in both implementations. -/
def backupFileName (ts : String) : String :=
  "n8n-backup-" ++ sanitizeTs ts ++ ".json"

/-- Export-all command of `backupWorkflows` in both implementations. -/
def exportAllCmd (cname file : String) : String :=
  "docker exec " ++ cname ++ " n8n export:workflow --all --output=/tmp/" ++ file

/-- Copy-out command of `backupWorkflows` in both implementations. -/
def cpOutCmd (cname file : String) : String :=
  "docker cp " ++ cname ++ ":/tmp/" ++ file ++ " ./" ++ file

/-- Container process-status command of `troubleshoot` in both
implementations. -/
def psCmd (cname : String) : String :=
  "docker ps --filter name=" ++ cname ++ " --format \"\x7b\x7b.Status\x7d\x7d\""

/-- Listing-search command of `troubleshoot` in both implementations. -/
def grepCmd (cname wid : String) : String :=
  "docker exec " ++ cname ++ " n8n list:workflow | grep " ++ wid

/-- Recent-logs command of `troubleshoot` in both implementations. -/
def logsCmd (cname : String) : String :=
  "docker logs --tail 20 " ++ cname

/-- Success results of `src/index.js` operations of the form
`\x7b success, message \x7d`. -/
structure OpResult where
  success : Bool
  message : String
deriving DecidableEq, Repr

/-- Success result of `backupWorkflows` in `src/index.js`:
`\x7b success, file \x7d`. -/
structure BackupResult where
  success : Bool
  file : String
deriving DecidableEq, Repr

/-- Diagnostic entry of `troubleshoot` in `src/index.js`:
`\x7b check, result \x7d`. -/
structure CheckEntry where
  check : String
  result : String
deriving DecidableEq, Repr

/-- The `listWorkflows` method of `src/index.js`: run the list command,
parse its output into summaries; a failure is re-thrown as
`Failed to list workflows: ...`. -/
def listWorkflowsIdx (env : Env) (cname : String) :
    Except String (List WorkflowSummary) × List Event :=
  match execIdx env (listCmdIdx cname) with
  | .ok out => (.ok (parseWorkflows out), [.run .listIdx (listCmdIdx cname)])
  | .error e => (.error ("Failed to list workflows: " ++ e), [.run .listIdx (listCmdIdx cname)])

/-- The `updateWorkflow` method of `src/index.js`: materialise the
serialised update payload to a timestamped temp file via `echo`, copy it
into the container, import it, remove the temp file.  The `wid` argument
mirrors the unused `workflowId` parameter of the source; `now` is the
`Date.now()` reading and `updJson` the `JSON.stringify(updateData)`
output.  The `echo` and `rm` steps use the raw `execAsync` (no
`Command failed:` wrapping); failures are re-thrown as
`Failed to update workflow: ...`. -/
def updateWorkflowIdx (env : Env) (cname wid : String) (now : Nat) (updJson : String) :
    Except String OpResult × List Event :=
  let tmp := "/tmp/workflow-update-" ++ toString now ++ ".json"
  let c1 := "echo \x27" ++ updJson ++ "\x27 > " ++ tmp
  match env c1 with
  | .error e => (.error ("Failed to update workflow: " ++ e), [.run .echoTmpIdx c1])
  | .ok _ =>
    match execIdx env (cpCmd tmp cname) with
    | .error e =>
      (.error ("Failed to update workflow: " ++ e),
        [.run .echoTmpIdx c1, .run .cpIdx (cpCmd tmp cname)])
    | .ok _ =>
      match execIdx env (importCmd cname) with
      | .error e =>
        (.error ("Failed to update workflow: " ++ e),
          [.run .echoTmpIdx c1, .run .cpIdx (cpCmd tmp cname), .run .importIdx (importCmd cname)])
      | .ok _ =>
        match env ("rm " ++ tmp) with
        | .error e =>
          (.error ("Failed to update workflow: " ++ e),
            [.run .echoTmpIdx c1, .run .cpIdx (cpCmd tmp cname),
              .run .importIdx (importCmd cname), .run .rmTmpIdx ("rm " ++ tmp)])
        | .ok _ =>
          (.ok ⟨true, "Workflow updated successfully"⟩,
            [.run .echoTmpIdx c1, .run .cpIdx (cpCmd tmp cname),
              .run .importIdx (importCmd cname), .run .rmTmpIdx ("rm " ++ tmp)])

/-- The `restartContainer` method of `src/index.js`: restart, then wait
10000 ms before returning success. -/
def restartContainerIdx (env : Env) (cname : String) :
    Except String OpResult × List Event :=
  match execIdx env (restartCmd cname) with
  | .error e =>
    (.error ("Failed to restart container: " ++ e), [.run .restartIdx (restartCmd cname)])
  | .ok _ =>
    (.ok ⟨true, "Container restarted successfully"⟩,
      [.run .restartIdx (restartCmd cname), .wait 10000])

/-- The `backupWorkflows` method of `src/index.js`: export all workflows
to a timestamped file in the container, copy it out, return the file
name. -/
def backupWorkflowsIdx (env : Env) (cname ts : String) :
    Except String BackupResult × List Event :=
  let file := backupFileName ts
  match execIdx env (exportAllCmd cname file) with
  | .error e =>
    (.error ("Failed to create backup: " ++ e), [.run .exportAllIdx (exportAllCmd cname file)])
  | .ok _ =>
    match execIdx env (cpOutCmd cname file) with
    | .error e =>
      (.error ("Failed to create backup: " ++ e),
        [.run .exportAllIdx (exportAllCmd cname file), .run .cpOutIdx (cpOutCmd cname file)])
    | .ok _ =>
      (.ok ⟨true, file⟩,
        [.run .exportAllIdx (exportAllCmd cname file), .run .cpOutIdx (cpOutCmd cname file)])

/-- The `troubleshoot` method of `src/index.js`: container status, then
the listing search, whose failure is caught locally and recorded as
`Workflow not found`, then the recent logs. -/
def troubleshootIdx (env : Env) (cname wid : String) :
    Except String (List CheckEntry) × List Event :=
  match execIdx env (psCmd cname) with
  | .error e => (.error ("Failed to troubleshoot: " ++ e), [.run .psIdx (psCmd cname)])
  | .ok s1 =>
    let wfEntry : CheckEntry :=
      match execIdx env (grepCmd cname wid) with
      | .ok s2 => ⟨"Workflow Status", jsTrimS s2⟩
      | .error _ => ⟨"Workflow Status", "Workflow not found"⟩
    match execIdx env (logsCmd cname) with
    | .error e =>
      (.error ("Failed to troubleshoot: " ++ e),
        [.run .psIdx (psCmd cname), .run .grepIdx (grepCmd cname wid),
          .run .logsIdx (logsCmd cname)])
    | .ok s3 =>
      (.ok [⟨"Container Status", jsTrimS s1⟩, wfEntry, ⟨"Recent Logs", s3⟩],
        [.run .psIdx (psCmd cname), .run .grepIdx (grepCmd cname wid),
          .run .logsIdx (logsCmd cname)])

/-- The `listWorkflows` method of `src/unnamed/part_000`: the raw listing
output is returned unparsed; a failure is returned (not thrown) as an
`Error listing workflows: ...` string. -/
def listWorkflowsPart (env : Env) (cname : String) : String × List Event :=
  match env (listCmdPart cname) with
  | .ok s => (s, [.run .listPart (listCmdPart cname)])
  | .error e => ("Error listing workflows: " ++ e, [.run .listPart (listCmdPart cname)])

/-- The `updateWorkflow` method of `src/unnamed/part_000`: export a backup
of the workflow, copy the given update file into the container, import it,
activate the workflow, restart the container; the first failure aborts the
remaining steps and is returned as an `Error updating workflow: ...`
string carrying the failing message. -/
def updateWorkflowPart (env : Env) (cname wid file : String) : String × List Event :=
  match env (backupCmd cname wid) with
  | .error e => ("Error updating workflow: " ++ e, [.run .backupPart (backupCmd cname wid)])
  | .ok _ =>
    match env (cpCmd file cname) with
    | .error e =>
      ("Error updating workflow: " ++ e,
        [.run .backupPart (backupCmd cname wid), .run .cpPart (cpCmd file cname)])
    | .ok _ =>
      match env (importCmd cname) with
      | .error e =>
        ("Error updating workflow: " ++ e,
          [.run .backupPart (backupCmd cname wid), .run .cpPart (cpCmd file cname),
            .run .importPart (importCmd cname)])
      | .ok _ =>
        match env (activateCmd cname wid) with
        | .error e =>
          ("Error updating workflow: " ++ e,
            [.run .backupPart (backupCmd cname wid), .run .cpPart (cpCmd file cname),
              .run .importPart (importCmd cname), .run .activatePart (activateCmd cname wid)])
        | .ok _ =>
          match env (restartCmd cname) with
          | .error e =>
            ("Error updating workflow: " ++ e,
              [.run .backupPart (backupCmd cname wid), .run .cpPart (cpCmd file cname),
                .run .importPart (importCmd cname), .run .activatePart (activateCmd cname wid),
                .run .restartDuringUpdatePart (restartCmd cname)])
          | .ok _ =>
            ("Workflow updated successfully",
              [.run .backupPart (backupCmd cname wid), .run .cpPart (cpCmd file cname),
                .run .importPart (importCmd cname), .run .activatePart (activateCmd cname wid),
                .run .restartDuringUpdatePart (restartCmd cname)])

/-- The `restartContainer` method of `src/unnamed/part_000`: restart, then
wait 20000 ms before returning the success string. -/
def restartContainerPart (env : Env) (cname : String) : String × List Event :=
  match env (restartCmd cname) with
  | .error e => ("Error restarting container: " ++ e, [.run .restartPart (restartCmd cname)])
  | .ok _ =>
    ("Container restarted successfully", [.run .restartPart (restartCmd cname), .wait 20000])

/-- The `backupWorkflows` method of `src/unnamed/part_000`. -/
def backupWorkflowsPart (env : Env) (cname ts : String) : String × List Event :=
  let file := backupFileName ts
  match env (exportAllCmd cname file) with
  | .error e =>
    ("Error creating backup: " ++ e, [.run .exportAllPart (exportAllCmd cname file)])
  | .ok _ =>
    match env (cpOutCmd cname file) with
    | .error e =>
      ("Error creating backup: " ++ e,
        [.run .exportAllPart (exportAllCmd cname file), .run .cpOutPart (cpOutCmd cname file)])
    | .ok _ =>
      ("Backup created: " ++ file,
        [.run .exportAllPart (exportAllCmd cname file), .run .cpOutPart (cpOutCmd cname file)])

/-- The `troubleshoot` method of `src/unnamed/part_000`: unlike the
`src/index.js` variant there is no inner catch, so any failing check
(including the listing search) aborts the remaining checks and the whole
result becomes an `Error during troubleshooting: ...` string. -/
def troubleshootPart (env : Env) (cname wid : String) : String × List Event :=
  match env (psCmd cname) with
  | .error e => ("Error during troubleshooting: " ++ e, [.run .psPart (psCmd cname)])
  | .ok s1 =>
    match env (grepCmd cname wid) with
    | .error e =>
      ("Error during troubleshooting: " ++ e,
        [.run .psPart (psCmd cname), .run .grepPart (grepCmd cname wid)])
    | .ok s2 =>
      match env (logsCmd cname) with
      | .error e =>
        ("Error during troubleshooting: " ++ e,
          [.run .psPart (psCmd cname), .run .grepPart (grepCmd cname wid),
            .run .logsPart (logsCmd cname)])
      | .ok s3 =>
        ("Container status: " ++ jsTrimS s1 ++ "\n\n" ++
            "Workflow status: " ++ jsTrimS s2 ++ "\n\n" ++
            "Recent logs:\n" ++ s3,
          [.run .psPart (psCmd cname), .run .grepPart (grepCmd cname wid),
            .run .logsPart (logsCmd cname)])


/-- The five tool handlers of the `CallToolRequestSchema` dispatch in
`src/index.js`, one per `case` of the `switch`. -/
inductive ToolHandler where
  | listW
  | updateW
  | restartC
  | backupW
  | troubleshootW
deriving DecidableEq, Repr

/-- Routing function of the `switch (name)` in `src/index.js`: the five
catalog names map to their handlers, every other name falls through to the
`default` case (`none`). -/
def routeTool : String → Option ToolHandler
  | "list_workflows" => some .listW
  | "update_workflow" => some .updateW
  | "restart_container" => some .restartC
  | "backup_workflows" => some .backupW
  | "troubleshoot" => some .troubleshootW
  | _ => none

/-- Arguments object of a tool call in `src/index.js`; absent properties
are JavaScript `undefined`, modelled as `none`.  The `updateData` object
is carried in its `JSON.stringify` serialisation, which is all the source
ever uses it for. -/
structure ToolArgs where
  workflowId : Option String
  updateData : Option String
deriving Repr

/-- Response of the tool-call handler in `src/index.js`: a single text
content block plus the `isError` flag of the catch branch. -/
structure ToolResponse where
  text : String
  isError : Bool
deriving DecidableEq, Repr

/-- Rendering of `JSON.stringify(value, null, 2)` for the result shapes of
`src/index.js`, up to insignificant whitespace and string escaping (none
of the claims inspects these success texts). -/
def renderOpResult (r : OpResult) : String :=
  "\x7b\"success\":" ++ (if r.success then "true" else "false") ++
    ",\"message\":\"" ++ r.message ++ "\"\x7d"

/-- Rendering of a `backupWorkflows` result of `src/index.js`, up to
whitespace and escaping. -/
def renderBackupResult (r : BackupResult) : String :=
  "\x7b\"success\":" ++ (if r.success then "true" else "false") ++
    ",\"file\":\"" ++ r.file ++ "\"\x7d"

/-- Rendering of one workflow summary of `src/index.js`, up to whitespace
and escaping; an `undefined` field is dropped by `JSON.stringify`. -/
def renderSummary (w : WorkflowSummary) : String :=
  "\x7b" ++
    (match w.id with | some i => "\"id\":\"" ++ i ++ "\"," | none => "") ++
    (match w.name with | some n => "\"name\":\"" ++ n ++ "\"," | none => "") ++
    "\"active\":" ++ (if w.active then "true" else "false") ++ "\x7d"

/-- Rendering of the summary list of `src/index.js`, up to whitespace and
escaping. -/
def renderSummaries (ws : List WorkflowSummary) : String :=
  "[" ++ String.intercalate "," (ws.map renderSummary) ++ "]"

/-- Rendering of one diagnostic entry of `src/index.js`, up to whitespace
and escaping. -/
def renderCheck (c : CheckEntry) : String :=
  "\x7b\"check\":\"" ++ c.check ++ "\",\"result\":\"" ++ c.result ++ "\"\x7d"

/-- Rendering of the diagnostic list of `src/index.js`, up to whitespace
and escaping. -/
def renderChecks (cs : List CheckEntry) : String :=
  "[" ++ String.intercalate "," (cs.map renderCheck) ++ "]"

/-- The `CallToolRequestSchema` handler of `src/index.js`: dispatch the
named tool, serialise its result as the text content, and turn any thrown
failure (including the `Unknown tool` one of the `default` case) into an
`Error: ...` text with `isError` set.  `now` is the `Date.now()` reading
and `ts` the ISO clock reading, both read only by the operations that use
them. -/
def callTool (env : Env) (cname : String) (now : Nat) (ts : String)
    (name : String) (args : ToolArgs) : ToolResponse × List Event :=
  match routeTool name with
  | none => (⟨"Error: Unknown tool: " ++ name, true⟩, [])
  | some .listW =>
    match listWorkflowsIdx env cname with
    | (.ok ws, t) => (⟨renderSummaries ws, false⟩, t)
    | (.error e, t) => (⟨"Error: " ++ e, true⟩, t)
  | some .updateW =>
    match updateWorkflowIdx env cname (jsStr args.workflowId) now (jsStr args.updateData) with
    | (.ok r, t) => (⟨renderOpResult r, false⟩, t)
    | (.error e, t) => (⟨"Error: " ++ e, true⟩, t)
  | some .restartC =>
    match restartContainerIdx env cname with
    | (.ok r, t) => (⟨renderOpResult r, false⟩, t)
    | (.error e, t) => (⟨"Error: " ++ e, true⟩, t)
  | some .backupW =>
    match backupWorkflowsIdx env cname ts with
    | (.ok r, t) => (⟨renderBackupResult r, false⟩, t)
    | (.error e, t) => (⟨"Error: " ++ e, true⟩, t)
  | some .troubleshootW =>
    match troubleshootIdx env cname (jsStr args.workflowId) with
    | (.ok cs, t) => (⟨renderChecks cs, false⟩, t)
    | (.error e, t) => (⟨"Error: " ++ e, true⟩, t)

/-- Parameters object of a stdio request in `src/unnamed/part_000`;
absent properties are `undefined` (`none`). -/
structure ReqParams where
  id : Option String
  file : Option String
  workflow : Option String
deriving DecidableEq, Repr

/-- A parsed stdio request of `src/unnamed/part_000`: the `params`
property itself may be absent, in which case reading a field of it throws
a TypeError. -/
structure Request where
  method : String
  params : Option ReqParams
deriving DecidableEq, Repr

/-- Message of the JavaScript TypeError raised by reading a property of
`undefined`. -/
def tyErr (field : String) : String :=
  "Cannot read properties of undefined (reading \x27" ++ field ++ "\x27)"

/-- Membership of a method name in the five-case `switch` of
`MCPServer.handleRequest` in `src/unnamed/part_000`. -/
def knownMethod (m : String) : Bool :=
  m == "list-workflows" || m == "update-workflow" || m == "restart-container" ||
    m == "backup-workflows" || m == "troubleshoot"

/-- The `MCPServer.handleRequest` dispatch of `src/unnamed/part_000`.
Reading `params.id` (or `params.workflow`) when `params` is absent throws,
modelled as `Except.error`; every other path returns the manager string.
An unknown method returns the string `Unknown command` as a normal
result. -/
def handleRequestPart (env : Env) (cname ts : String) (req : Request) :
    Except String (String × List Event) :=
  match req.method with
  | "list-workflows" => .ok (listWorkflowsPart env cname)
  | "update-workflow" =>
    match req.params with
    | none => .error (tyErr "id")
    | some p => .ok (updateWorkflowPart env cname (jsStr p.id) (jsStr p.file))
  | "restart-container" => .ok (restartContainerPart env cname)
  | "backup-workflows" => .ok (backupWorkflowsPart env cname ts)
  | "troubleshoot" =>
    match req.params with
    | none => .error (tyErr "workflow")
    | some p => .ok (troubleshootPart env cname (jsStr p.workflow))
  | _ => .ok ("Unknown command", [])

/-- Output stream a response line of `src/unnamed/part_000` is written to:
`console.log` writes to stdout, `console.error` to stderr. -/
inductive OutChannel where
  | stdout
  | stderr
deriving DecidableEq, Repr

/-- Shape of a serialised response line of `src/unnamed/part_000`: either
`JSON.stringify(\x7b result: response \x7d)` or
`JSON.stringify(\x7b error: message \x7d)`. -/
inductive JsonOut where
  | resultObj (s : String)
  | errorObj (s : String)
deriving DecidableEq, Repr

/-- One emitted response line of `src/unnamed/part_000`. -/
structure ServerOutput where
  channel : OutChannel
  json : JsonOut
deriving DecidableEq, Repr

/-- One turn of the stdin data handler of `MCPServer.start` in
`src/unnamed/part_000`: the input is the `JSON.parse` outcome of the data
chunk (`Except.error` carries the parse-failure message); a successful
`handleRequest` is logged as a result object on stdout, any thrown failure
as an error object on stderr. -/
def serverStepPart (env : Env) (cname ts : String) (inp : Except String Request) :
    ServerOutput :=
  match inp with
  | .error m => ⟨.stderr, .errorObj m⟩
  | .ok req =>
    match handleRequestPart env cname ts req with
    | .error m => ⟨.stderr, .errorObj m⟩
    | .ok (resp, _) => ⟨.stdout, .resultObj resp⟩

/-- The stdin loop of `MCPServer.start`: each data chunk is handled
independently by `serverStepPart`; no chunk stops the loop. -/
def serverRunPart (env : Env) (cname ts : String)
    (inps : List (Except String Request)) : List ServerOutput :=
  inps.map (serverStepPart env cname ts)

/-- JSON string-body escaping as performed by `JSON.stringify` for the
characters that can occur here: quote, backslash, and the common control
characters. -/
def escapeJs : List Char → List Char
  | [] => []
  | c :: cs =>
    if c = '"' ∨ c = '\\' then '\\' :: c :: escapeJs cs
    else if c = '\n' then '\\' :: 'n' :: escapeJs cs
    else if c = '\r' then '\\' :: 'r' :: escapeJs cs
    else if c = '\t' then '\\' :: 't' :: escapeJs cs
    else c :: escapeJs cs

/-- Serialisation of a response line of `src/unnamed/part_000` to the
character sequence actually written: a one-field JSON object whose value
is the escaped string. -/
def renderOut : JsonOut → List Char
  | .resultObj s =>
    ['\x7b', '"'] ++ "result".data ++ ['"', ':', '"'] ++ escapeJs s.data ++ ['"', '\x7d']
  | .errorObj s =>
    ['\x7b', '"'] ++ "error".data ++ ['"', ':', '"'] ++ escapeJs s.data ++ ['"', '\x7d']

/-- Single characters allowed after a backslash in a JSON string. -/
def escOk (d : Char) : Bool :=
  d == '"' || d == '\\' || d == '/' || d == 'b' || d == 'f' || d == 'n' || d == 'r' || d == 't'

/-- Checker for a JSON string body after its opening quote: consumes up to
and including the closing quote, accepting only the single-character
escapes of JSON, and returns the remainder.  The flag records that the
previous character was a pending backslash. -/
def chkStr : Bool → List Char → Option (List Char)
  | _, [] => none
  | true, d :: cs => if escOk d then chkStr false cs else none
  | false, c :: cs =>
    if c = '\\' then chkStr true cs
    else if c = '"' then some cs
    else chkStr false cs

/-- Checker for an object key after its opening quote: one or more
alphabetic characters up to the closing quote. -/
def chkName : List Char → Option (List Char)
  | [] => none
  | '"' :: cs => some cs
  | c :: cs => if c.isAlpha then chkName cs else none

/-- Validity of a response line: exactly a JSON object with a single
alphabetic key and a string value. -/
def validResponse (cs : List Char) : Bool :=
  match cs with
  | '\x7b' :: '"' :: rest =>
    match chkName rest with
    | none => false
    | some rest2 =>
      match rest2 with
      | ':' :: '"' :: rest3 =>
        match chkStr false rest3 with
        | some ('\x7d' :: []) => true
        | _ => false
      | _ => false
  | _ => false

/-- Boolean list-prefix test on character sequences. -/
def isPrefixSeq : List Char → List Char → Bool
  | [], _ => true
  | _ :: _, [] => false
  | a :: as, b :: bs => a == b && isPrefixSeq as bs

/-- Boolean substring test on character sequences. -/
def containsSeq (needle : List Char) : List Char → Bool
  | [] => isPrefixSeq needle []
  | c :: rest => isPrefixSeq needle (c :: rest) || containsSeq needle rest

/-- Test whether a returned string begins with the word Error, the failure
convention of the `src/unnamed/part_000` manager methods. -/
def startsWithError (s : String) : Bool :=
  isPrefixSeq "Error".data s.data

/-- Results of two consecutive `backupWorkflows` invocations of
`src/index.js` against the same environment, each observing its own ISO
clock reading. -/
def backupTwice (env : Env) (cname ts1 ts2 : String) :
    Except String BackupResult × Except String BackupResult :=
  ((backupWorkflowsIdx env cname ts1).1, (backupWorkflowsIdx env cname ts2).1)

/-- Condition under which `MCPServer.handleRequest` of
`src/unnamed/part_000` reaches its manager call without reading a property
of an absent `params` object: `params` is present, or the method is one of
the three that never touch `params`. -/
def paramsPresentOrUnneeded (req : Request) : Bool :=
  req.params.isSome || req.method == "list-workflows" ||
    req.method == "restart-container" || req.method == "backup-workflows"

/-- Environment in which every command succeeds with empty output. -/
def envOk : Env := fun _ => .ok ""

/-- Environment in which every command fails with the given message. -/
def failAllEnv (m : String) : Env := fun _ => .error m

/-- Environment whose every command prints the two-row workflow table of
the specification. -/
def envListC1 : Env := fun _ => .ok "id1  WorkflowA  Active\nid2  WorkflowB  Inactive"

/-- Environment in which exactly the import command of the default
container fails. -/
def envImportFail : Env := fun c =>
  if c = importCmd "n8n-container" then .error "import failed" else .ok ""

/-- Environment in which exactly the listing-search command for workflow
`w1` fails (grep exits non-zero when the id is absent from the listing). -/
def envGrepFail : Env := fun c =>
  if c = grepCmd "n8n-container" "w1" then .error "exited with code 1"
  else .ok "Up 3 hours"

/-- Helper: the character data of a string concatenation is the
concatenation of the character data. -/
theorem dataAppend (a b : String) : (a ++ b).data = a.data ++ b.data := by
  cases a
  cases b
  rfl

/-- Helper: strings with equal character data are equal. -/
theorem stringEqOfData (a b : String) (h : a.data = b.data) : a = b := by
  cases a
  cases b
  exact congrArg String.mk h

/-- Helper: a character sequence is a prefix of itself followed by
anything. -/
theorem isPrefixSeq_self_append (p xs : List Char) : isPrefixSeq p (p ++ xs) = true := by
  induction p with
  | nil => rfl
  | cons c t ih => simp [isPrefixSeq, ih]

/-- Helper: a string whose data decomposes as the word Error followed by a
remainder passes `startsWithError`. -/
theorem startsWithError_of_decomp (s : String) (r : List Char)
    (h : s.data = "Error".data ++ r) : startsWithError s = true := by
  unfold startsWithError
  rw [h]
  exact isPrefixSeq_self_append _ _

/-- Helper: the JSON string checker consumes an escaped string body up to
its closing quote. -/
theorem chkStr_escape (cs rest : List Char) :
    chkStr false (escapeJs cs ++ '"' :: rest) = some rest := by
  induction cs with
  | nil => simp [escapeJs, chkStr]
  | cons c t ih =>
    by_cases h1 : c = '"' ∨ c = '\\'
    · rcases h1 with h | h <;> subst h <;> simp [escapeJs, chkStr, escOk, ih]
    · by_cases h2 : c = '\n'
      · subst h2
        simp [escapeJs, chkStr, escOk, ih]
      · by_cases h3 : c = '\r'
        · subst h3
          simp [escapeJs, chkStr, escOk, ih]
        · by_cases h4 : c = '\t'
          · subst h4
            simp [escapeJs, chkStr, escOk, ih]
          · have e1 : escapeJs (c :: t) = c :: escapeJs t := by
              simp only [escapeJs]
              rw [if_neg h1, if_neg h2, if_neg h3, if_neg h4]
            have hq : ¬ c = '"' := fun hh => h1 (Or.inl hh)
            have hb : ¬ c = '\\' := fun hh => h1 (Or.inr hh)
            rw [e1]
            simp only [List.cons_append, chkStr]
            rw [if_neg hb, if_neg hq]
            exact ih

/-- Helper: every serialised response line of `src/unnamed/part_000` is a
valid one-field JSON object. -/
theorem renderOut_valid (j : JsonOut) : validResponse (renderOut j) = true := by
  cases j with
  | resultObj s =>
    have step : validResponse (renderOut (JsonOut.resultObj s)) =
        (match chkStr false (escapeJs s.data ++ '"' :: '\x7d' :: []) with
          | some ('\x7d' :: []) => true
          | _ => false) := rfl
    rw [step, chkStr_escape]
    rfl
  | errorObj s =>
    have step : validResponse (renderOut (JsonOut.errorObj s)) =
        (match chkStr false (escapeJs s.data ++ '"' :: '\x7d' :: []) with
          | some ('\x7d' :: []) => true
          | _ => false) := rfl
    rw [step, chkStr_escape]
    rfl

/-- Claim C1: for the list operation, parsing the tabular CLI output
consisting of the two lines `id1  WorkflowA  Active` and
`id2  WorkflowB  Inactive` yields exactly the two-element ordered sequence
of workflow summaries with identifiers id1 and id2, names WorkflowA and
WorkflowB, and active flags true and false respectively, active being true
exactly when the third column equals Active. -/
theorem list_parses_two_tabular_rows :
    parseWorkflows "id1  WorkflowA  Active\nid2  WorkflowB  Inactive" =
      [⟨some "id1", some "WorkflowA", true⟩, ⟨some "id2", some "WorkflowB", false⟩] ∧
    listWorkflowsIdx envListC1 "n8n-container" =
      (.ok [⟨some "id1", some "WorkflowA", true⟩, ⟨some "id2", some "WorkflowB", false⟩],
        [.run .listIdx (listCmdIdx "n8n-container")]) := by
  constructor
  · decide
  · rfl

/-- Claim C9: when the list-workflows command succeeds with empty or
whitespace-only standard output, the list operation of `src/index.js`
returns a one-element sequence containing the degenerate summary whose id
is the empty string, whose name is absent, and whose active flag is
false. -/
theorem list_empty_output_degenerate :
    parseWorkflows "" = [⟨some "", none, false⟩] ∧
    parseWorkflows " \n  " = [⟨some "", none, false⟩] ∧
    listWorkflowsIdx envOk "n8n-container" =
      (.ok [⟨some "", none, false⟩], [.run .listIdx (listCmdIdx "n8n-container")]) := by
  refine ⟨by decide, by decide, rfl⟩

/-- Claim C2: when the import step of an update invocation fails after the
earlier steps succeeded, the subsequent activation and restart steps of
`src/unnamed/part_000` are not executed and its reported error carries
the import failure message; likewise `src/index.js` stops at the import step
and reports an error carrying the import failure message, not one of an
earlier step. -/
theorem update_import_failure_aborts (env : Env) (cname wid file s1 s2 m : String)
    (now : Nat) (updJson : String) (s4 s5 : String)
    (h1 : env (backupCmd cname wid) = .ok s1)
    (h2 : env (cpCmd file cname) = .ok s2)
    (h3 : env (importCmd cname) = .error m)
    (h4 : env ("echo \x27" ++ updJson ++ "\x27 > " ++
      ("/tmp/workflow-update-" ++ toString now ++ ".json")) = .ok s4)
    (h5 : env (cpCmd ("/tmp/workflow-update-" ++ toString now ++ ".json") cname) = .ok s5) :
    updateWorkflowPart env cname wid file =
      ("Error updating workflow: " ++ m,
        [.run .backupPart (backupCmd cname wid), .run .cpPart (cpCmd file cname),
          .run .importPart (importCmd cname)]) ∧
    hitsStep (updateWorkflowPart env cname wid file).2 .activatePart = false ∧
    hitsStep (updateWorkflowPart env cname wid file).2 .restartDuringUpdatePart = false ∧
    updateWorkflowIdx env cname wid now updJson =
      (.error ("Failed to update workflow: " ++ ("Command failed: " ++ m)),
        [.run .echoTmpIdx ("echo \x27" ++ updJson ++ "\x27 > " ++
            ("/tmp/workflow-update-" ++ toString now ++ ".json")),
          .run .cpIdx (cpCmd ("/tmp/workflow-update-" ++ toString now ++ ".json") cname),
          .run .importIdx (importCmd cname)]) := by
  have h : updateWorkflowPart env cname wid file =
      ("Error updating workflow: " ++ m,
        [.run .backupPart (backupCmd cname wid), .run .cpPart (cpCmd file cname),
          .run .importPart (importCmd cname)]) := by
    simp [updateWorkflowPart, h1, h2, h3]
  refine ⟨h, ?_, ?_, ?_⟩
  · rw [h]
    rfl
  · rw [h]
    rfl
  · simp [updateWorkflowIdx, execIdx, h3, h4, h5]

/-- Witness for C2 at a concrete environment in which exactly the import
command fails. -/
theorem update_import_failure_aborts_witness :
    updateWorkflowPart envImportFail "n8n-container" "w1" "./update.json" =
      ("Error updating workflow: " ++ "import failed",
        [.run .backupPart (backupCmd "n8n-container" "w1"),
          .run .cpPart (cpCmd "./update.json" "n8n-container"),
          .run .importPart (importCmd "n8n-container")]) ∧
    hitsStep (updateWorkflowPart envImportFail "n8n-container" "w1" "./update.json").2
      .activatePart = false ∧
    hitsStep (updateWorkflowPart envImportFail "n8n-container" "w1" "./update.json").2
      .restartDuringUpdatePart = false ∧
    updateWorkflowIdx envImportFail "n8n-container" "w1" 0 "x" =
      (.error ("Failed to update workflow: " ++ ("Command failed: " ++ "import failed")),
        [.run .echoTmpIdx ("echo \x27" ++ "x" ++ "\x27 > " ++
            ("/tmp/workflow-update-" ++ toString 0 ++ ".json")),
          .run .cpIdx (cpCmd ("/tmp/workflow-update-" ++ toString 0 ++ ".json")
            "n8n-container"),
          .run .importIdx (importCmd "n8n-container")]) :=
  update_import_failure_aborts envImportFail "n8n-container" "w1" "./update.json"
    "" "" "import failed" 0 "x" "" "" rfl rfl rfl rfl rfl

/-- Counterexample for C3: in the `src/unnamed/part_000` troubleshoot,
which has no inner catch, a concrete invocation whose listing-search
command fails (the id is absent from the listing) returns the
`Error during troubleshooting` string instead of check entries: the
recent-logs check never executes and the result contains no
`not found` text, so the claim fails on this cited code. -/
theorem troubleshoot_part_aborts_cex :
    troubleshootPart envGrepFail "n8n-container" "w1" =
      ("Error during troubleshooting: " ++ "exited with code 1",
        [.run .psPart (psCmd "n8n-container"),
          .run .grepPart (grepCmd "n8n-container" "w1")]) ∧
    hitsStep (troubleshootPart envGrepFail "n8n-container" "w1").2 .logsPart = false ∧
    containsSeq "not found".data
      (troubleshootPart envGrepFail "n8n-container" "w1").1.data = false := by
  refine ⟨rfl, rfl, by decide⟩

/-- Amended C3: in the `src/index.js` troubleshoot, when the
container-status and logs commands succeed but the listing-search command
fails (the workflow id is absent from the listing), the operation still
completes successfully, its result contains a Workflow Status entry whose
text is `Workflow not found`, and the container-status and recent-logs
entries are still produced; in the `src/unnamed/part_000` troubleshoot,
which has no inner catch, the same failure aborts the remaining checks —
the logs command is never executed — and the operation instead returns an
`Error during troubleshooting` string carrying the failure message. -/
theorem troubleshoot_tolerates_missing_workflow (env : Env) (cname wid s1 e2 s3 : String)
    (h1 : env (psCmd cname) = .ok s1)
    (h2 : env (grepCmd cname wid) = .error e2)
    (h3 : env (logsCmd cname) = .ok s3) :
    troubleshootIdx env cname wid =
      (.ok [⟨"Container Status", jsTrimS s1⟩, ⟨"Workflow Status", "Workflow not found"⟩,
          ⟨"Recent Logs", s3⟩],
        [.run .psIdx (psCmd cname), .run .grepIdx (grepCmd cname wid),
          .run .logsIdx (logsCmd cname)]) ∧
    troubleshootPart env cname wid =
      ("Error during troubleshooting: " ++ e2,
        [.run .psPart (psCmd cname), .run .grepPart (grepCmd cname wid)]) ∧
    hitsStep (troubleshootPart env cname wid).2 .logsPart = false := by
  have hIdx : troubleshootIdx env cname wid =
      (.ok [⟨"Container Status", jsTrimS s1⟩, ⟨"Workflow Status", "Workflow not found"⟩,
          ⟨"Recent Logs", s3⟩],
        [.run .psIdx (psCmd cname), .run .grepIdx (grepCmd cname wid),
          .run .logsIdx (logsCmd cname)]) := by
    simp [troubleshootIdx, execIdx, h1, h2, h3]
  have hPart : troubleshootPart env cname wid =
      ("Error during troubleshooting: " ++ e2,
        [.run .psPart (psCmd cname), .run .grepPart (grepCmd cname wid)]) := by
    simp [troubleshootPart, h1, h2]
  refine ⟨hIdx, hPart, ?_⟩
  rw [hPart]
  rfl

/-- Witness for the amended C3 at a concrete environment in which exactly
the listing-search command fails. -/
theorem troubleshoot_tolerates_missing_workflow_witness :
    troubleshootIdx envGrepFail "n8n-container" "w1" =
      (.ok [⟨"Container Status", jsTrimS "Up 3 hours"⟩,
          ⟨"Workflow Status", "Workflow not found"⟩,
          ⟨"Recent Logs", "Up 3 hours"⟩],
        [.run .psIdx (psCmd "n8n-container"), .run .grepIdx (grepCmd "n8n-container" "w1"),
          .run .logsIdx (logsCmd "n8n-container")]) ∧
    troubleshootPart envGrepFail "n8n-container" "w1" =
      ("Error during troubleshooting: " ++ "exited with code 1",
        [.run .psPart (psCmd "n8n-container"),
          .run .grepPart (grepCmd "n8n-container" "w1")]) ∧
    hitsStep (troubleshootPart envGrepFail "n8n-container" "w1").2 .logsPart = false :=
  troubleshoot_tolerates_missing_workflow envGrepFail "n8n-container" "w1"
    "Up 3 hours" "exited with code 1" "Up 3 hours" rfl rfl rfl

/-- Counterexample for C4: a concrete successful update invocation of
`src/index.js` executes exactly the echo, copy, import and remove
commands; its import step runs, yet no command of the invocation is an
export or backup command, so the claimed export-before-import ordering of
every update invocation fails on this implementation. -/
theorem update_idx_lacks_backup_cex :
    (updateWorkflowIdx envOk "n8n-container" "wf1" 0 "x").2 =
      [.run .echoTmpIdx "echo \x27x\x27 > /tmp/workflow-update-0.json",
        .run .cpIdx (cpCmd "/tmp/workflow-update-0.json" "n8n-container"),
        .run .importIdx (importCmd "n8n-container"),
        .run .rmTmpIdx "rm /tmp/workflow-update-0.json"] ∧
    hitsStep (updateWorkflowIdx envOk "n8n-container" "wf1" 0 "x").2 .importIdx = true ∧
    ((updateWorkflowIdx envOk "n8n-container" "wf1" 0 "x").2.all fun e =>
      match e with
      | .run _ c => !(containsSeq "export".data c.data)
      | .wait _ => true) = true := by
  refine ⟨rfl, rfl, by decide⟩

/-- Amended C4: in the `src/unnamed/part_000` implementation, an update
invocation in which every command succeeds performs, in order, the backup
export, the copy into the container, the import, the activation, and the
container restart — in particular the backup precedes the import; in the
`src/index.js` implementation the invocation instead materialises the
inline payload, copies it, imports it and removes the temp file, with no
backup, activation, or restart step. -/
theorem update_step_orders (env : Env) (cname wid file : String) (now : Nat)
    (updJson : String) (h : ∀ c, ∃ o, env c = .ok o) :
    updateWorkflowPart env cname wid file =
      ("Workflow updated successfully",
        [.run .backupPart (backupCmd cname wid), .run .cpPart (cpCmd file cname),
          .run .importPart (importCmd cname), .run .activatePart (activateCmd cname wid),
          .run .restartDuringUpdatePart (restartCmd cname)]) ∧
    (updateWorkflowIdx env cname wid now updJson).2 =
      [.run .echoTmpIdx
          ("echo \x27" ++ updJson ++ "\x27 > " ++
            ("/tmp/workflow-update-" ++ toString now ++ ".json")),
        .run .cpIdx (cpCmd ("/tmp/workflow-update-" ++ toString now ++ ".json") cname),
        .run .importIdx (importCmd cname),
        .run .rmTmpIdx ("rm " ++ ("/tmp/workflow-update-" ++ toString now ++ ".json"))] := by
  obtain ⟨o1, e1⟩ := h (backupCmd cname wid)
  obtain ⟨o2, e2⟩ := h (cpCmd file cname)
  obtain ⟨o3, e3⟩ := h (importCmd cname)
  obtain ⟨o4, e4⟩ := h (activateCmd cname wid)
  obtain ⟨o5, e5⟩ := h (restartCmd cname)
  obtain ⟨o6, e6⟩ := h ("echo \x27" ++ updJson ++ "\x27 > " ++
    ("/tmp/workflow-update-" ++ toString now ++ ".json"))
  obtain ⟨o7, e7⟩ := h (cpCmd ("/tmp/workflow-update-" ++ toString now ++ ".json") cname)
  obtain ⟨o8, e8⟩ := h ("rm " ++ ("/tmp/workflow-update-" ++ toString now ++ ".json"))
  constructor
  · simp [updateWorkflowPart, e1, e2, e3, e4, e5]
  · simp [updateWorkflowIdx, execIdx, e3, e6, e7, e8]

/-- Witness for the amended C4 at the all-success environment. -/
theorem update_step_orders_witness :
    updateWorkflowPart envOk "n8n-container" "w1" "./update.json" =
      ("Workflow updated successfully",
        [.run .backupPart (backupCmd "n8n-container" "w1"),
          .run .cpPart (cpCmd "./update.json" "n8n-container"),
          .run .importPart (importCmd "n8n-container"),
          .run .activatePart (activateCmd "n8n-container" "w1"),
          .run .restartDuringUpdatePart (restartCmd "n8n-container")]) ∧
    (updateWorkflowIdx envOk "n8n-container" "w1" 0 "x").2 =
      [.run .echoTmpIdx
          ("echo \x27" ++ "x" ++ "\x27 > " ++
            ("/tmp/workflow-update-" ++ toString 0 ++ ".json")),
        .run .cpIdx (cpCmd ("/tmp/workflow-update-" ++ toString 0 ++ ".json") "n8n-container"),
        .run .importIdx (importCmd "n8n-container"),
        .run .rmTmpIdx ("rm " ++ ("/tmp/workflow-update-" ++ toString 0 ++ ".json"))] :=
  update_step_orders envOk "n8n-container" "w1" "./update.json" 0 "x"
    (fun _ => ⟨"", rfl⟩)

/-- Claim C5: the `src/index.js` dispatch routes each of the five catalog
names to its own handler; any other name yields the user-visible
`Error: Unknown tool` response with the error flag set, and no external
command is executed for that request. -/
theorem dispatch_catalog_and_unknown (env : Env) (cname : String) (now : Nat) (ts : String)
    (args : ToolArgs) (name : String)
    (h : name ∉ ["list_workflows", "update_workflow", "restart_container",
      "backup_workflows", "troubleshoot"]) :
    routeTool "list_workflows" = some .listW ∧
    routeTool "update_workflow" = some .updateW ∧
    routeTool "restart_container" = some .restartC ∧
    routeTool "backup_workflows" = some .backupW ∧
    routeTool "troubleshoot" = some .troubleshootW ∧
    routeTool name = none ∧
    callTool env cname now ts name args =
      (⟨"Error: Unknown tool: " ++ name, true⟩, []) := by
  have hr : routeTool name = none := by
    simp only [List.mem_cons, List.not_mem_nil, or_false, not_or] at h
    obtain ⟨n1, n2, n3, n4, n5⟩ := h
    unfold routeTool
    split <;> simp_all
  refine ⟨rfl, rfl, rfl, rfl, rfl, hr, ?_⟩
  unfold callTool
  rw [hr]

/-- Witness for C5 at a concrete unknown operation name. -/
theorem dispatch_catalog_and_unknown_witness :
    routeTool "list_workflows" = some .listW ∧
    routeTool "update_workflow" = some .updateW ∧
    routeTool "restart_container" = some .restartC ∧
    routeTool "backup_workflows" = some .backupW ∧
    routeTool "troubleshoot" = some .troubleshootW ∧
    routeTool "delete_everything" = none ∧
    callTool envOk "n8n-container" 0 "2025-01-01T00:00:00.000Z" "delete_everything"
        ⟨none, none⟩ =
      (⟨"Error: Unknown tool: " ++ "delete_everything", true⟩, []) :=
  dispatch_catalog_and_unknown envOk "n8n-container" 0 "2025-01-01T00:00:00.000Z"
    ⟨none, none⟩ "delete_everything" (by decide)

/-- Counterexample for C6: two backup invocations made within the same
millisecond observe the same ISO clock reading and return the same backup
file name — the names of this pair of invocations do not differ, and
nothing besides the clock reading feeds the name. -/
theorem backup_same_millisecond_collision_cex :
    backupTwice envOk "n8n-container" "2025-01-01T00:00:00.000Z" "2025-01-01T00:00:00.000Z" =
      (.ok ⟨true, "n8n-backup-2025-01-01T00-00-00-000Z.json"⟩,
        .ok ⟨true, "n8n-backup-2025-01-01T00-00-00-000Z.json"⟩) ∧
    backupFileName "2025-01-01T00:00:00.000Z" =
      "n8n-backup-2025-01-01T00-00-00-000Z.json" := by
  exact ⟨rfl, rfl⟩

/-- Amended C6: the backup file name is determined by the sanitised clock
reading alone — two invocations produce equal names exactly when their
sanitised timestamps are equal, so calls with distinct sanitised
timestamps get distinct names while calls within the same time unit (which
observe the same clock reading) collide. -/
theorem backup_name_collision_iff (ts1 ts2 : String) :
    backupFileName ts1 = backupFileName ts2 ↔ sanitizeTs ts1 = sanitizeTs ts2 := by
  constructor
  · intro h
    have h2 := congrArg String.data h
    simp only [backupFileName] at h2
    rw [dataAppend, dataAppend, dataAppend, dataAppend] at h2
    have h3 := List.append_cancel_right h2
    have h4 := List.append_cancel_left h3
    exact stringEqOfData _ _ h4
  · intro h
    unfold backupFileName
    rw [h]

/-- Witness for the amended C6: distinct sanitised timestamps give
distinct backup file names. -/
theorem backup_name_collision_iff_witness :
    backupFileName "2025-01-01T00:00:00.000Z" ≠ backupFileName "2025-01-01T00:00:00.001Z" :=
  fun h => absurd ((backup_name_collision_iff _ _).mp h) (by decide)

/-- Claim C8: a restart invocation whose restart command succeeds issues
exactly one external command and then a fixed wait — 10000 ms in
`src/index.js` and 20000 ms in `src/unnamed/part_000`, both within the
10-to-20-second interval — before returning success, with no readiness
probe (no further external command) before returning. -/
theorem restart_fixed_wait (env : Env) (cname s : String)
    (h : env (restartCmd cname) = .ok s) :
    restartContainerIdx env cname =
      (.ok ⟨true, "Container restarted successfully"⟩,
        [.run .restartIdx (restartCmd cname), .wait 10000]) ∧
    restartContainerPart env cname =
      ("Container restarted successfully",
        [.run .restartPart (restartCmd cname), .wait 20000]) ∧
    countCmds (restartContainerIdx env cname).2 = 1 ∧
    countCmds (restartContainerPart env cname).2 = 1 ∧
    10 * 1000 ≤ 10000 ∧ 10000 ≤ 20 * 1000 ∧ 10 * 1000 ≤ 20000 ∧ 20000 ≤ 20 * 1000 := by
  have hIdx : restartContainerIdx env cname =
      (.ok ⟨true, "Container restarted successfully"⟩,
        [.run .restartIdx (restartCmd cname), .wait 10000]) := by
    simp [restartContainerIdx, execIdx, h]
  have hPart : restartContainerPart env cname =
      ("Container restarted successfully",
        [.run .restartPart (restartCmd cname), .wait 20000]) := by
    simp [restartContainerPart, h]
  refine ⟨hIdx, hPart, ?_, ?_, by norm_num, by norm_num, by norm_num, by norm_num⟩
  · rw [hIdx]
    rfl
  · rw [hPart]
    rfl

/-- Witness for C8 at the all-success environment. -/
theorem restart_fixed_wait_witness :
    restartContainerIdx envOk "n8n-container" =
      (.ok ⟨true, "Container restarted successfully"⟩,
        [.run .restartIdx (restartCmd "n8n-container"), .wait 10000]) ∧
    restartContainerPart envOk "n8n-container" =
      ("Container restarted successfully",
        [.run .restartPart (restartCmd "n8n-container"), .wait 20000]) ∧
    countCmds (restartContainerIdx envOk "n8n-container").2 = 1 ∧
    countCmds (restartContainerPart envOk "n8n-container").2 = 1 ∧
    10 * 1000 ≤ 10000 ∧ 10000 ≤ 20 * 1000 ∧ 10 * 1000 ≤ 20000 ∧ 20000 ≤ 20 * 1000 :=
  restart_fixed_wait envOk "n8n-container" "" rfl

/-- Claim C7: every stdin data chunk of the `src/unnamed/part_000` server
— parse failure, handler failure, or success alike — produces exactly one
response line, and every response line serialises to a valid one-field
JSON object carrying either a result or an error string; no chunk is
dropped and processing continues for every subsequent chunk. -/
theorem server_every_input_gets_valid_response (env : Env) (cname ts : String)
    (inps : List (Except String Request)) :
    (serverRunPart env cname ts inps).length = inps.length ∧
    ((serverRunPart env cname ts inps).all fun o =>
      validResponse (renderOut o.json)) = true := by
  constructor
  · simp [serverRunPart]
  · refine List.all_eq_true.mpr ?_
    intro o _
    exact renderOut_valid o.json

/-- Counterexample for C10: the parseable request naming the known
operation update-workflow but carrying no params object makes
`handleRequest` of `src/unnamed/part_000` read a property of `undefined`;
the thrown TypeError is reported as an error-field response, so a known
operation does not always produce a result field. -/
theorem server_known_op_error_response_cex :
    knownMethod "update-workflow" = true ∧
    serverStepPart envOk "n8n-container" "2025-01-01T00:00:00.000Z"
        (.ok ⟨"update-workflow", none⟩) =
      ⟨.stderr, .errorObj (tyErr "id")⟩ :=
  ⟨rfl, rfl⟩

/-- Amended C10: the `src/unnamed/part_000` manager methods themselves
never throw — under any environment, including failing ones, they return
strings, on failure beginning with Error — and every parseable request
naming a known operation whose params object is present (or which needs no
params) gets a result-field response on stdout; only reading a parameter
of an absent params object can still produce an error-field response. -/
theorem handle_known_requests_yield_result (env : Env) (cname ts : String) (req : Request)
    (hk : knownMethod req.method = true) (hp : paramsPresentOrUnneeded req = true) :
    (∃ s t, handleRequestPart env cname ts req = .ok (s, t) ∧
      serverStepPart env cname ts (.ok req) = ⟨.stdout, .resultObj s⟩) ∧
    (∀ m cname2 wid file : String,
      startsWithError (listWorkflowsPart (failAllEnv m) cname2).1 = true ∧
      startsWithError (updateWorkflowPart (failAllEnv m) cname2 wid file).1 = true ∧
      startsWithError (restartContainerPart (failAllEnv m) cname2).1 = true ∧
      startsWithError (backupWorkflowsPart (failAllEnv m) cname2 ts).1 = true ∧
      startsWithError (troubleshootPart (failAllEnv m) cname2 wid).1 = true) := by
  have errPart : ∀ m cname2 wid file : String,
      startsWithError (listWorkflowsPart (failAllEnv m) cname2).1 = true ∧
      startsWithError (updateWorkflowPart (failAllEnv m) cname2 wid file).1 = true ∧
      startsWithError (restartContainerPart (failAllEnv m) cname2).1 = true ∧
      startsWithError (backupWorkflowsPart (failAllEnv m) cname2 ts).1 = true ∧
      startsWithError (troubleshootPart (failAllEnv m) cname2 wid).1 = true := by
    intro m cname2 wid file
    refine ⟨?_, ?_, ?_, ?_, ?_⟩
    · apply startsWithError_of_decomp _ (" listing workflows: ".data ++ m.data)
      show ("Error listing workflows: " ++ m).data =
        "Error".data ++ (" listing workflows: ".data ++ m.data)
      rw [dataAppend]
      rfl
    · apply startsWithError_of_decomp _ (" updating workflow: ".data ++ m.data)
      show ("Error updating workflow: " ++ m).data =
        "Error".data ++ (" updating workflow: ".data ++ m.data)
      rw [dataAppend]
      rfl
    · apply startsWithError_of_decomp _ (" restarting container: ".data ++ m.data)
      show ("Error restarting container: " ++ m).data =
        "Error".data ++ (" restarting container: ".data ++ m.data)
      rw [dataAppend]
      rfl
    · apply startsWithError_of_decomp _ (" creating backup: ".data ++ m.data)
      show ("Error creating backup: " ++ m).data =
        "Error".data ++ (" creating backup: ".data ++ m.data)
      rw [dataAppend]
      rfl
    · apply startsWithError_of_decomp _ (" during troubleshooting: ".data ++ m.data)
      show ("Error during troubleshooting: " ++ m).data =
        "Error".data ++ (" during troubleshooting: ".data ++ m.data)
      rw [dataAppend]
      rfl
  obtain ⟨method, params⟩ := req
  simp only [knownMethod, Bool.or_eq_true] at hk
  rcases hk with ((((hm | hm) | hm) | hm) | hm) <;> rw [eq_of_beq hm] at hp ⊢ <;>
    first
    | exact ⟨⟨(listWorkflowsPart env cname).1, (listWorkflowsPart env cname).2, rfl, rfl⟩,
        errPart⟩
    | exact ⟨⟨(restartContainerPart env cname).1, (restartContainerPart env cname).2,
        rfl, rfl⟩, errPart⟩
    | exact ⟨⟨(backupWorkflowsPart env cname ts).1, (backupWorkflowsPart env cname ts).2,
        rfl, rfl⟩, errPart⟩
    | · simp only [paramsPresentOrUnneeded, Bool.or_eq_true] at hp
        rcases hp with ((hp | hp) | hp) | hp
        · obtain ⟨p, hpp⟩ := Option.isSome_iff_exists.mp hp
          subst hpp
          first
          | exact ⟨⟨(updateWorkflowPart env cname (jsStr p.id) (jsStr p.file)).1,
              (updateWorkflowPart env cname (jsStr p.id) (jsStr p.file)).2, rfl, rfl⟩,
              errPart⟩
          | exact ⟨⟨(troubleshootPart env cname (jsStr p.workflow)).1,
              (troubleshootPart env cname (jsStr p.workflow)).2, rfl, rfl⟩, errPart⟩
        · exact absurd hp (by decide)
        · exact absurd hp (by decide)
        · exact absurd hp (by decide)

/-- Witness for the amended C10 at a concrete parameterless known
operation. -/
theorem handle_known_requests_yield_result_witness :
    (∃ s t, handleRequestPart envOk "n8n-container" "2025-01-01T00:00:00.000Z"
        ⟨"backup-workflows", none⟩ = .ok (s, t) ∧
      serverStepPart envOk "n8n-container" "2025-01-01T00:00:00.000Z"
          (.ok ⟨"backup-workflows", none⟩) =
        ⟨.stdout, .resultObj s⟩) ∧
    (∀ m cname2 wid file : String,
      startsWithError (listWorkflowsPart (failAllEnv m) cname2).1 = true ∧
      startsWithError (updateWorkflowPart (failAllEnv m) cname2 wid file).1 = true ∧
      startsWithError (restartContainerPart (failAllEnv m) cname2).1 = true ∧
      startsWithError
        (backupWorkflowsPart (failAllEnv m) cname2 "2025-01-01T00:00:00.000Z").1 = true ∧
      startsWithError (troubleshootPart (failAllEnv m) cname2 wid).1 = true) :=
  handle_known_requests_yield_result envOk "n8n-container" "2025-01-01T00:00:00.000Z"
    ⟨"backup-workflows", none⟩ (by decide) (by decide)
